import Mathlib

/-!
Verification of the connection layer of the supex driver
(`driver/src/supex_driver/connection/connection.py` and
`driver/src/supex_driver/connection/exceptions.py`).

The development shallowly embeds the connection code: the byte stream is a
script of socket events, `json.loads` is embedded as an executable
recursive-descent syntax checker over `List Char`, and the stateful retry
loop of `send_command` becomes a fueled recursion whose fuel mirrors the
`retry_count <= MAX_RETRIES` guard.  Machine-level concerns (UTF-8 decode
errors, float values of JSON numbers) are represented at the granularity
the claims need: numbers keep their lexeme, chunks are char lists.
-/

namespace Supex

/-- Result of Python `json.loads` on a response text.  Numbers keep their
source lexeme (the claims never compare numeric values across distinct
lexemes, so this loses nothing). -/
inductive Json where
  | null
  | bool (b : Bool)
  | num (lexeme : String)
  | str (s : String)
  | arr (elems : List Json)
  | obj (fields : List (String × Json))

/-- JSON whitespace accepted by Python's decoder. -/
def isJsonWs (c : Char) : Bool :=
  c = ' ' || c = '\t' || c = '\n' || c = '\r'

/-- Drop leading JSON whitespace. -/
def skipWs : List Char → List Char
  | [] => []
  | c :: cs => if isJsonWs c then skipWs cs else c :: cs

def isDigitChar (c : Char) : Bool := '0' ≤ c && c ≤ '9'

def isHexChar (c : Char) : Bool :=
  isDigitChar c || ('a' ≤ c && c ≤ 'f') || ('A' ≤ c && c ≤ 'F')

def hexVal (c : Char) : Nat :=
  if isDigitChar c then c.toNat - '0'.toNat
  else if 'a' ≤ c && c ≤ 'f' then c.toNat - 'a'.toNat + 10
  else c.toNat - 'A'.toNat + 10

/-- Body of a JSON string literal, after the opening quote: returns the
decoded characters and the remaining input after the closing quote.
Mirrors Python's strict decoder: raw control characters are rejected and
only the standard escapes (plus \uXXXX) are accepted. -/
def parseStringBody : Nat → List Char → Option (List Char × List Char)
  | 0, _ => none
  | _ + 1, [] => none
  | fuel + 1, c :: cs =>
    if c = '"' then some ([], cs)
    else if c = '\\' then
      match cs with
      | [] => none
      | e :: cs2 =>
        if e = '"' || e = '\\' || e = '/' then
          (parseStringBody fuel cs2).map (fun p => (e :: p.1, p.2))
        else if e = 'b' then
          (parseStringBody fuel cs2).map (fun p => (Char.ofNat 8 :: p.1, p.2))
        else if e = 'f' then
          (parseStringBody fuel cs2).map (fun p => (Char.ofNat 12 :: p.1, p.2))
        else if e = 'n' then
          (parseStringBody fuel cs2).map (fun p => ('\n' :: p.1, p.2))
        else if e = 'r' then
          (parseStringBody fuel cs2).map (fun p => ('\r' :: p.1, p.2))
        else if e = 't' then
          (parseStringBody fuel cs2).map (fun p => ('\t' :: p.1, p.2))
        else if e = 'u' then
          match cs2 with
          | h1 :: h2 :: h3 :: h4 :: cs3 =>
            if isHexChar h1 && isHexChar h2 && isHexChar h3 && isHexChar h4 then
              (parseStringBody fuel cs3).map (fun p =>
                (Char.ofNat (((hexVal h1 * 16 + hexVal h2) * 16 + hexVal h3) * 16 + hexVal h4)
                  :: p.1, p.2))
            else none
          | _ => none
        else none
    else if c.toNat < 32 then none
    else (parseStringBody fuel cs).map (fun p => (c :: p.1, p.2))

/-- Longest digit run at the front of the input. -/
def spanDigits : List Char → List Char × List Char
  | [] => ([], [])
  | c :: cs =>
    if isDigitChar c then
      let p := spanDigits cs
      (c :: p.1, p.2)
    else ([], c :: cs)

/-- Integer part of a JSON number: 0, or a nonzero digit followed by digits. -/
def parseIntPart : List Char → Option (List Char × List Char)
  | [] => none
  | c :: cs =>
    if c = '0' then some ([c], cs)
    else if isDigitChar c then
      let p := spanDigits cs
      some (c :: p.1, p.2)
    else none

/-- Optional fractional part; a bare '.' with no digits is a hard failure. -/
def parseFracPart : List Char → Option (List Char × List Char)
  | '.' :: cs =>
    match spanDigits cs with
    | ([], _) => none
    | (ds, rest) => some ('.' :: ds, rest)
  | other => some ([], other)

/-- Optional exponent part; 'e' with no digits is a hard failure. -/
def parseExpPart : List Char → Option (List Char × List Char)
  | [] => some ([], [])
  | c :: cs =>
    if c = 'e' || c = 'E' then
      match cs with
      | s :: cs2 =>
        if s = '+' || s = '-' then
          match spanDigits cs2 with
          | ([], _) => none
          | (ds, rest) => some (c :: s :: ds, rest)
        else
          match spanDigits (s :: cs2) with
          | ([], _) => none
          | (ds, rest) => some (c :: ds, rest)
      | [] => none
    else some ([], c :: cs)

/-- Match an expected literal character sequence. -/
def expectChars : List Char → List Char → Option (List Char)
  | [], rest => some rest
  | _ :: _, [] => none
  | e :: es, c :: cs => if c = e then expectChars es cs else none

/-- Unsigned JSON number (int, frac?, exp?). -/
def parseUnsigned (input : List Char) : Option (List Char × List Char) :=
  match parseIntPart input with
  | none => none
  | some (ip, r1) =>
    match parseFracPart r1 with
    | none => none
    | some (fp, r2) =>
      match parseExpPart r2 with
      | none => none
      | some (ep, r3) => some (ip ++ fp ++ ep, r3)

/-- JSON number, with Python's default acceptance of -Infinity. -/
def parseNumber (input : List Char) : Option (List Char × List Char) :=
  match input with
  | '-' :: cs =>
    match expectChars ['I', 'n', 'f', 'i', 'n', 'i', 't', 'y'] cs with
    | some rest => some ("-Infinity".toList, rest)
    | none =>
      match parseUnsigned cs with
      | none => none
      | some (body, rest) => some ('-' :: body, rest)
  | _ => parseUnsigned input

/-- Mode of the single fueled JSON parsing function: a value, the member
list of an object (accumulated fields so far), or the element list of an
array. -/
inductive PMode where
  | value
  | members (acc : List (String × Json))
  | elems (acc : List Json)

/-- Recursive-descent embedding of Python's `json.loads` grammar.  Fuel
decreases on every recursive call, so the definition is structural and
reduces definitionally on concrete input. -/
def parseJ : Nat → PMode → List Char → Option (Json × List Char)
  | 0, _, _ => none
  | fuel + 1, .value, input =>
    match skipWs input with
    | [] => none
    | c :: cs =>
      if c = '"' then
        (parseStringBody (cs.length + 1) cs).map (fun p => (.str (String.mk p.1), p.2))
      else if c = '{' then
        match skipWs cs with
        | '}' :: rest => some (.obj [], rest)
        | rest2 => parseJ fuel (.members []) rest2
      else if c = '[' then
        match skipWs cs with
        | ']' :: rest => some (.arr [], rest)
        | rest2 => parseJ fuel (.elems []) rest2
      else if c = 't' then (expectChars ['r', 'u', 'e'] cs).map (fun r => (.bool true, r))
      else if c = 'f' then (expectChars ['a', 'l', 's', 'e'] cs).map (fun r => (.bool false, r))
      else if c = 'n' then (expectChars ['u', 'l', 'l'] cs).map (fun r => (.null, r))
      else if c = 'N' then (expectChars ['a', 'N'] cs).map (fun r => (.num "NaN", r))
      else if c = 'I' then
        (expectChars ['n', 'f', 'i', 'n', 'i', 't', 'y'] cs).map (fun r => (.num "Infinity", r))
      else if c = '-' || isDigitChar c then
        (parseNumber (c :: cs)).map (fun p => (.num (String.mk p.1), p.2))
      else none
  | fuel + 1, .members acc, input =>
    match skipWs input with
    | '"' :: cs =>
      match parseStringBody (cs.length + 1) cs with
      | none => none
      | some (key, r1) =>
        match skipWs r1 with
        | ':' :: r2 =>
          match parseJ fuel .value r2 with
          | none => none
          | some (v, r3) =>
            match skipWs r3 with
            | ',' :: r4 => parseJ fuel (.members (acc ++ [(String.mk key, v)])) r4
            | '}' :: r4 => some (.obj (acc ++ [(String.mk key, v)]), r4)
            | _ => none
        | _ => none
    | _ => none
  | fuel + 1, .elems acc, input =>
    match parseJ fuel .value input with
    | none => none
    | some (v, r1) =>
      match skipWs r1 with
      | ',' :: r2 => parseJ fuel (.elems (acc ++ [v])) r2
      | ']' :: r2 => some (.arr (acc ++ [v]), r2)
      | _ => none

/-- Fuel that is always sufficient: every two fuel units consume at least
one input character. -/
def jsonFuel (s : List Char) : Nat := 2 * s.length + 2

/-- Embedding of `json.loads` applied to a full document: one value with
only whitespace around it. -/
def jsonParse (s : List Char) : Option Json :=
  match parseJ (jsonFuel s) .value s with
  | some (v, rest) => if skipWs rest = [] then some v else none
  | none => none

/-- Does `json.loads` succeed on this text? -/
def jsonValid (s : List Char) : Bool := (jsonParse s).isSome

/-!  Error taxonomy.  One constructor per exception class that the
connection code can actually raise (`exceptions.py` additionally defines
`SketchUpRemoteError`, but no statement in `connection.py` raises it, so
it has no constructor here; `send_command` raises a plain
`Exception(error_msg)` for responses carrying "error", embedded as
`PyErr.exn`). -/
inductive PyErr where
  /-- `SketchUpConnectionError(msg)` -/
  | skConn (msg : String)
  /-- `SketchUpTimeoutError(msg)` -/
  | skTimeout (msg : String)
  /-- `SketchUpProtocolError(msg)` -/
  | skProto (msg : String)
  /-- a builtin `TimeoutError` / `ConnectionError` / `BrokenPipeError` /
  `ConnectionResetError` raised by a socket operation -/
  | transport (msg : String)
  /-- a plain `Exception(payload)` (line 277: raised when the decoded
  response carries an "error" field; also the kind a non-mapping response
  would produce via `TypeError` / `AttributeError`) -/
  | exn (payload : Json)

/-- One result of `sock.recv(buffer_size)` in the receive loop.
`data []` is Python's `b""`, i.e. the peer closed the connection. -/
inductive RecvEvent where
  | data (chunk : List Char)
  | timeoutEv
  | connErrEv (msg : String)

/-- Result of `receive_full_response`.  `starved` marks the point where
the event script ran out while the loop still waited on `recv` (a real
socket would block there); no theorem rests on a starved run. -/
inductive RecvResult where
  | ok (data : List Char)
  | err (e : PyErr)
  | starved

/-- Lines 193-202 of connection.py: the block reached by `break` (peer
closed with data already buffered, or a timeout).  If nothing was
received raise `SketchUpConnectionError("No data received")`; if the
buffer parses as JSON return it; otherwise raise
`SketchUpProtocolError("Incomplete JSON response received")`. -/
def afterBreak (acc : List Char) : RecvResult :=
  if acc.isEmpty then .err (.skConn "No data received")
  else if jsonValid acc then .ok acc
  else .err (.skProto "Incomplete JSON response received")

/-- The receive loop (lines 152-202).  After each nonempty chunk the code
tries `json.loads` on the whole buffer and returns on success; `recv`
returning `b""` with an empty buffer raises a connection error, with a
nonempty buffer it breaks to `afterBreak`; a `TimeoutError` from `recv`
is caught by the inner handler, which only breaks (so the outer handler
that would raise `SketchUpTimeoutError` is unreachable from `recv`);
`ConnectionError`-family exceptions are re-raised as
`SketchUpConnectionError`.  The second component counts `recv` calls. -/
def receiveLoop : List RecvEvent → List Char → Nat → RecvResult × Nat
  | [], _, reads => (.starved, reads)
  | .data chunk :: rest, acc, reads =>
    if chunk.isEmpty then
      if acc.isEmpty then
        (.err (.skConn "Connection closed before receiving any data"), reads + 1)
      else (afterBreak acc, reads + 1)
    else
      let acc2 := acc ++ chunk
      if jsonValid acc2 then (.ok acc2, reads + 1)
      else receiveLoop rest acc2 (reads + 1)
  | .timeoutEv :: _, acc, reads => (afterBreak acc, reads + 1)
  | .connErrEv msg :: _, _, reads => (.err (.skConn msg), reads + 1)

/-- `receive_full_response(sock)`: run the receive loop on the socket's
event script, starting from an empty buffer. -/
def receive_full_response (script : List RecvEvent) : RecvResult × Nat :=
  receiveLoop script [] 0

/-!  The `send_command` layer. -/

/-- Membership test for a Python dict key (`k in d` on a dict). -/
def dictHasKey (fields : List (String × Json)) (k : String) : Bool :=
  fields.any (fun p => p.1 = k)

/-- Python `d[k]` / `d.get(k)` on a dict: first binding wins. -/
def dictGet (fields : List (String × Json)) (k : String) : Option Json :=
  (fields.find? (fun p => p.1 = k)).map (fun p => p.2)

/-- Line 273: `response["error"].get("message", "Unknown error from
SketchUp")`.  A non-mapping "error" value would raise `AttributeError` in
Python (never exercised by the claims); it is folded into the default. -/
def remoteErrorPayload (errVal : Json) : Json :=
  match errVal with
  | .obj fs => (dictGet fs "message").getD (.str "Unknown error from SketchUp")
  | _ => .str "Unknown error from SketchUp"

/-- Behavior of one iteration of the `send_command` loop as seen from the
environment: either `sock.sendall` raises a transport error, or the send
succeeds and `receive_full_response` consumes the given event script. -/
inductive Attempt where
  | sendFail (msg : String)
  | sendOk (script : List RecvEvent)

/-- Outcome of `send_command`: the returned `result` mapping, a raised
exception, or a starved event script. -/
inductive CmdOutcome where
  | ok (result : Json)
  | err (e : PyErr)
  | starved

/-- One loop iteration (lines 261-279): send, receive, `json.loads`, then
either raise `Exception(error_msg)` for a response with "error" or return
`response.get("result", {})`.  A non-mapping response raises a builtin
`TypeError`/`AttributeError` in Python, i.e. a plain non-retryable
exception, embedded as `PyErr.exn`.  The `json.JSONDecodeError` branch
(line 307) is kept although `receive_full_response` only ever returns
buffers that already parsed. -/
def runAttempt : Attempt → CmdOutcome
  | .sendFail msg => .err (.transport msg)
  | .sendOk script =>
    match (receive_full_response script).1 with
    | .starved => .starved
    | .err e => .err e
    | .ok data =>
      match jsonParse data with
      | none => .err (.skProto "Invalid response from SketchUp")
      | some (.obj fs) =>
        match dictGet fs "error" with
        | some errVal => .err (.exn (remoteErrorPayload errVal))
        | none => .ok ((dictGet fs "result").getD (.obj []))
      | some _ => .err (.exn (.str "unhandled non-mapping response"))

/-- Which exceptions the tuple at lines 281-288 catches and retries:
builtin transport errors, `SketchUpTimeoutError`, and
`SketchUpConnectionError`.  `SketchUpProtocolError` and plain exceptions
fall through to the later handlers and are re-raised at once. -/
def retryable : PyErr → Bool
  | .transport _ => true
  | .skConn _ => true
  | .skTimeout _ => true
  | .skProto _ => false
  | .exn _ => false

/-- Python `str(e)` for the exception interpolated into the final
message; only transport-level kinds reach that interpolation. -/
def errText : PyErr → String
  | .transport m => m
  | .skConn m => m
  | .skTimeout m => m
  | .skProto m => m
  | .exn _ => ""

/-- Result of the retry loop together with the send attempts made and
the reconnect attempts made. -/
structure LoopOut where
  outcome : CmdOutcome
  attempts : Nat
  reconnects : Nat

/-- The retry loop of `send_command` (lines 257-321).  `fuel` is
`MAX_RETRIES + 1 - retry_count`, so `fuel = 0` is the loop guard
`retry_count <= MAX_RETRIES` failing (the line-321 raise, shared with the
`break` taken when a reconnect fails), and the inner `1 ≤ fuel` is the
`retry_count <= MAX_RETRIES` test after the increment at line 292. -/
def sendLoop (att : Nat → Attempt) (rec : Nat → Bool) (maxRetries : Nat) :
    Nat → Nat → Nat → LoopOut
  | 0, k, r => ⟨.err (.skConn "Connection to SketchUp lost after all retries"), k, r⟩
  | fuel + 1, k, r =>
    match runAttempt (att k) with
    | .starved => ⟨.starved, k + 1, r⟩
    | .ok v => ⟨.ok v, k + 1, r⟩
    | .err e =>
      if retryable e then
        if 1 ≤ fuel then
          if rec r then sendLoop att rec maxRetries fuel (k + 1) (r + 1)
          else ⟨.err (.skConn "Connection to SketchUp lost after all retries"), k + 1, r + 1⟩
        else
          ⟨.err (.skConn ("Connection to SketchUp lost after "
            ++ toString (maxRetries + 1) ++ " attempts: " ++ errText e)), k + 1, r⟩
      else ⟨.err e, k + 1, r⟩

/-- `MAX_RETRIES = int(os.environ.get("SUPEX_RETRIES", "2"))`: default. -/
def MAX_RETRIES : Nat := 2

/-- Mutable fields of the `SketchupConnection` dataclass that
`send_command` could consult: the socket handle and the `_identified`
flag.  The dataclass has no token field and no activity timestamp. -/
structure ConnState where
  sockSome : Bool
  identified : Bool

/-- Python truthiness of the `params` argument (`None` and `{}` are
falsy). -/
def paramsTruthy (params : Option (List (String × Json))) : Bool :=
  match params with
  | some (_ :: _) => true
  | _ => false

/-- The fields of `params`, or `[]` for `None`. -/
def paramsFields (params : Option (List (String × Json))) : List (String × Json) :=
  match params with
  | some fs => fs
  | none => []

/-- `params or {}`. -/
def paramsOrEmpty (params : Option (List (String × Json))) : List (String × Json) :=
  if paramsTruthy params then paramsFields params else []

/-- Request construction (lines 226-255): an already-wrapped `tools/call`
(truthy params containing both "name" and "arguments") and
`resources/list` go out as direct JSON-RPC calls; every other method is
wrapped as `tools/call` with `params = {"name": method, "arguments":
params or {}}`. -/
def buildRequest (method : String) (params : Option (List (String × Json)))
    (requestId : Json) : Json :=
  if method = "tools/call" ∧ paramsTruthy params = true
      ∧ dictHasKey (paramsFields params) "name" = true
      ∧ dictHasKey (paramsFields params) "arguments" = true then
    .obj [("jsonrpc", .str "2.0"), ("method", .str method),
          ("params", .obj (paramsFields params)), ("id", requestId)]
  else if method = "resources/list" then
    .obj [("jsonrpc", .str "2.0"), ("method", .str method),
          ("params", .obj (paramsOrEmpty params)), ("id", requestId)]
  else
    .obj [("jsonrpc", .str "2.0"), ("method", .str "tools/call"),
          ("params", .obj [("name", .str method),
                           ("arguments", .obj (paramsOrEmpty params))]),
          ("id", requestId)]

/-- Result of `send_command` plus the request it built (none when the
initial connect failed before the request was built), the number of
`connect()` invocations (each running the full hello handshake), and the
number of send attempts. -/
structure CmdResult where
  outcome : CmdOutcome
  request : Option Json
  connectCalls : Nat
  attempts : Nat

/-- `send_command(method, params, request_id)` (lines 204-321).  Line 222
calls `connect()` unconditionally — whatever `st` holds — and `connect()`
itself begins with `disconnect()`, so any existing socket is discarded
and the hello handshake re-runs on every call; if that connect fails the
call raises `SketchUpConnectionError("Not connected to SketchUp")`.
`connectOK i` is the outcome of the i-th `connect()` of this call (the
initial one, then one per retry). -/
def send_command (_st : ConnState) (connectOK : Nat → Bool) (att : Nat → Attempt)
    (method : String) (params : Option (List (String × Json))) (requestId : Json)
    (maxRetries : Nat) : CmdResult :=
  if connectOK 0 then
    let req := buildRequest method params requestId
    let lo := sendLoop att (fun i => connectOK (i + 1)) maxRetries (maxRetries + 1) 0 0
    ⟨lo.outcome, some req, 1 + lo.reconnects, lo.attempts⟩
  else
    ⟨.err (.skConn "Not connected to SketchUp"), none, 1, 0⟩

/-!  The hello handshake request (`_send_hello`, lines 85-104). -/

def CLIENT_NAME : String := "supex-driver"

/-- `importlib.metadata.version("supex-driver")` with fallback "0.0.0";
the looked-up string is environment metadata, so the model keeps the
fallback. -/
def CLIENT_VERSION : String := "0.0.0"

/-- The `params` of the hello request (lines 97-102): always exactly
name, version, agent and pid — the code never adds a token key and the
dataclass offers no token to configure. -/
def helloParams (agent : String) (pid : Nat) : List (String × Json) :=
  [("name", .str CLIENT_NAME), ("version", .str CLIENT_VERSION),
   ("agent", .str agent), ("pid", .num (toString pid))]

/-- The full hello request (lines 94-104). -/
def helloRequest (agent : String) (pid : Nat) : Json :=
  .obj [("jsonrpc", .str "2.0"), ("method", .str "hello"),
        ("params", .obj (helloParams agent pid)), ("id", .str "hello")]

/-!  The shared-connection singleton (`get_sketchup_connection`,
lines 330-373). -/

/-- The observable fields of a `SketchupConnection` instance held by the
module-level singleton. -/
structure ConnRecord where
  host : String
  port : Nat
  agent : String
  sockSome : Bool
deriving DecidableEq

/-- The module globals `_sketchup_connection` and `_connection_agent`. -/
structure GlobalConn where
  conn : Option ConnRecord
  connAgent : Option String
deriving DecidableEq

/-- `get_sketchup_connection(host, port, agent)`.  If the agent changed,
the cached connection is discarded (lines 349-353; `_connection_agent` is
only updated at creation).  If a cached connection remains it is returned
whether or not it has a socket: with a socket via the return at line 359,
without one by falling through — the creation block is skipped because
the cached object is not `None` — to the return at line 373.  Only when
no cached connection remains is a fresh, not-yet-connected instance
created with the given host, port and agent. -/
def get_sketchup_connection (st : GlobalConn) (host : String) (port : Nat)
    (agent : String) : ConnRecord × GlobalConn :=
  let st1 : GlobalConn :=
    if st.conn.isSome ∧ st.connAgent ≠ some agent then ⟨none, st.connAgent⟩ else st
  match st1.conn with
  | some c => if c.sockSome then (c, st1) else (c, st1)
  | none =>
    let c : ConnRecord := ⟨host, port, agent, false⟩
    (c, ⟨some c, some agent⟩)

/-!  Auxiliary predicates used by the theorems. -/

/-- Does this attempt end in one of the exceptions the retry tuple at
lines 281-288 catches? -/
def attemptFailsTransport (a : Attempt) : Bool :=
  match runAttempt a with
  | .err e => retryable e
  | _ => false

/-- Did `send_command` raise a `SketchUpConnectionError`? -/
def isConnErrOutcome : CmdOutcome → Bool
  | .err (.skConn _) => true
  | _ => false

/-- Is this result the size-limit protocol error the spec describes? -/
def raisesSizeError : RecvResult → Bool
  | .err (.skProto m) => m == "response exceeds maximum size"
  | _ => false

/-!  Helper lemmas. -/

/-- The char 'x' starts no JSON value, whatever follows it. -/
theorem parseJ_x_none (fuel : Nat) (s : List Char) :
    parseJ fuel .value ('x' :: s) = none := by
  cases fuel <;> rfl

/-- A buffer beginning with 'x' never parses, whatever its length. -/
theorem jsonValid_x_cons (s : List Char) : jsonValid ('x' :: s) = false := by
  unfold jsonValid jsonParse
  rw [parseJ_x_none]
  rfl

/-- When the post-break block returns data, that data parses as JSON. -/
theorem afterBreak_ok_json {acc d : List Char} (h : afterBreak acc = .ok d) :
    jsonValid d = true := by
  unfold afterBreak at h
  split_ifs at h with h1 h2
  all_goals cases h
  all_goals exact h2

/-- Whatever the receive loop returns as data parses as JSON. -/
theorem receiveLoop_ok_json : ∀ (script : List RecvEvent) (acc : List Char)
    (reads n : Nat) (d : List Char),
    receiveLoop script acc reads = (.ok d, n) → jsonValid d = true := by
  intro script
  induction script with
  | nil =>
    intro acc reads n d h
    simp [receiveLoop] at h
  | cons ev rest ih =>
    intro acc reads n d h
    cases ev with
    | data chunk =>
      by_cases hc : chunk.isEmpty = true
      · by_cases ha : acc.isEmpty = true
        · simp [receiveLoop, hc, ha] at h
        · simp [receiveLoop, hc, ha] at h
          exact afterBreak_ok_json h.1
      · by_cases hv : jsonValid (acc ++ chunk) = true
        · simp [receiveLoop, hc, hv] at h
          exact h.1 ▸ hv
        · simp [receiveLoop, hc, hv] at h
          exact ih _ _ _ _ h
    | timeoutEv =>
      simp [receiveLoop] at h
      exact afterBreak_ok_json h.1
    | connErrEv m => simp [receiveLoop] at h

/-- The post-break block never raises a size error. -/
theorem afterBreak_no_size (acc : List Char) :
    raisesSizeError (afterBreak acc) = false := by
  unfold afterBreak
  split_ifs <;> rfl

/-- The receive loop never raises a size error. -/
theorem receiveLoop_no_size : ∀ (script : List RecvEvent) (acc : List Char) (reads : Nat),
    raisesSizeError (receiveLoop script acc reads).1 = false := by
  intro script
  induction script with
  | nil => intro acc reads; rfl
  | cons ev rest ih =>
    intro acc reads
    cases ev with
    | data chunk =>
      by_cases hc : chunk.isEmpty = true
      · by_cases ha : acc.isEmpty = true
        · simp [receiveLoop, hc, ha, raisesSizeError]
        · simp [receiveLoop, hc, ha, afterBreak_no_size]
      · by_cases hv : jsonValid (acc ++ chunk) = true
        · simp [receiveLoop, hc, hv, raisesSizeError]
        · simp [receiveLoop, hc, hv, ih]
    | timeoutEv => simp [receiveLoop, afterBreak_no_size]
    | connErrEv m => simp [receiveLoop, raisesSizeError]

/-- Attempts made by the retry loop never exceed its fuel. -/
theorem sendLoop_attempts_le (att : Nat → Attempt) (rec : Nat → Bool) (maxR : Nat) :
    ∀ (fuel k r : Nat), (sendLoop att rec maxR fuel k r).attempts ≤ k + fuel := by
  intro fuel
  induction fuel with
  | zero => intro k r; simp [sendLoop]
  | succ f ih =>
    intro k r
    cases hA : runAttempt (att k) with
    | ok v => simp [sendLoop, hA]
    | starved => simp [sendLoop, hA]
    | err e =>
      by_cases hr : retryable e = true
      · by_cases hf : 1 ≤ f
        · by_cases hrec : rec r = true
          · have := ih (k + 1) (r + 1)
            simp [sendLoop, hA, hr, hf, hrec]
            omega
          · simp [sendLoop, hA, hr, hf, hrec]
        · simp [sendLoop, hA, hr, hf]
      · simp [sendLoop, hA, hr]

/-- When every attempt fails with a caught transport-level error and
every reconnect succeeds, the loop burns all its fuel and ends in a
`SketchUpConnectionError`. -/
theorem sendLoop_allfail (att : Nat → Attempt) (rec : Nat → Bool) (maxR : Nat)
    (hA : ∀ i, attemptFailsTransport (att i) = true)
    (hR : ∀ i, rec i = true) :
    ∀ (fuel k r : Nat), 1 ≤ fuel →
      (sendLoop att rec maxR fuel k r).attempts = k + fuel
      ∧ isConnErrOutcome (sendLoop att rec maxR fuel k r).outcome = true := by
  intro fuel
  induction fuel with
  | zero => intro k r h; omega
  | succ f ih =>
    intro k r _
    have hAk := hA k
    unfold attemptFailsTransport at hAk
    cases hE : runAttempt (att k) with
    | ok v => simp [hE] at hAk
    | starved => simp [hE] at hAk
    | err e =>
      simp only [hE] at hAk
      by_cases hf : 1 ≤ f
      · obtain ⟨h1, h2⟩ := ih (k + 1) (r + 1) hf
        constructor
        · simp [sendLoop, hE, hAk, hf, hR r]
          omega
        · simp [sendLoop, hE, hAk, hf, hR r]
          exact h2
      · constructor
        · simp [sendLoop, hE, hAk, hf]
          omega
        · simp [sendLoop, hE, hAk, hf, isConnErrOutcome]

/-- When an attempt fails with a caught transport-level error, the retry
budget is not exhausted, but the reconnect fails, the loop breaks at once
with the line-321 `SketchUpConnectionError` after that single extra
attempt. -/
theorem sendLoop_reconnect_fail (att : Nat → Attempt) (rec : Nat → Bool) (maxR : Nat)
    (f k r : Nat)
    (hE : attemptFailsTransport (att k) = true)
    (hrec : rec r = false) :
    sendLoop att rec maxR (f + 1 + 1) k r
      = ⟨.err (.skConn "Connection to SketchUp lost after all retries"), k + 1, r + 1⟩ := by
  unfold attemptFailsTransport at hE
  cases hA : runAttempt (att k) with
  | ok v => simp [hA] at hE
  | starved => simp [hA] at hE
  | err e =>
    simp only [hA] at hE
    simp [sendLoop, hA, hE, hrec, Nat.le_add_left]

/-!  The claims. -/

/-- C1: a peer response carrying an `error` member does not surface as
the dedicated `SketchUpRemoteError` of `exceptions.py`: `send_command`
raises a plain `Exception(error_msg)` (line 277, re-raised by the generic
handler at line 318) that carries only the message — the numeric `code`
(-32000) and the structured `data` (`hint`) of the response are
discarded.  The error taxonomy `PyErr` of this embedding, built from the
raise sites of connection.py, has no remote-error constructor at all. -/
theorem c1_remote_error_not_typed :
    (send_command ⟨true, true⟩ (fun _ => true)
      (fun _ => .sendOk [.data ("\x7b\"error\": \x7b\"code\": -32000, \"message\": \"boom\", \"data\": \x7b\"hint\": \"check X\"\x7d\x7d\x7d".toList)])
      "get_model_info" none .null MAX_RETRIES).outcome
      = .err (.exn (.str "boom")) := rfl

/-- C2: `send_command` invokes `connect()` unconditionally at line 222 —
even when the connection state is healthy and identified it discards the
socket and re-runs the hello handshake, and when that fresh `connect()`
fails it raises "Not connected to SketchUp" although a healthy connection
existed; when the fresh connect succeeds, exactly one handshake-running
`connect()` call is still made for the single command. -/
theorem c2_connect_unconditional :
    send_command ⟨true, true⟩ (fun _ => false) (fun _ => .sendFail "unused")
        "ping" none .null MAX_RETRIES
      = ⟨.err (.skConn "Not connected to SketchUp"), none, 1, 0⟩
    ∧ (send_command ⟨true, true⟩ (fun _ => true)
        (fun _ => .sendOk [.data ("\x7b\"result\": \x7b\x7d\x7d".toList)])
        "ping" none .null MAX_RETRIES).connectCalls = 1 :=
  ⟨rfl, rfl⟩

/-- C3 counterexample: a newline is not the frame delimiter.  After the
chunk "oops\n" — which contains a `\n` byte — the code does not return
the buffer; it keeps reading (a second `recv` happens) and, when the peer
closes, fails with the incomplete-JSON protocol error. -/
theorem c3_newline_cex :
    ('\n' ∈ "oops\n".toList)
    ∧ receive_full_response [.data "oops\n".toList, .data []]
        = (.err (.skProto "Incomplete JSON response received"), 2) :=
  ⟨by decide, rfl⟩

/-- C3 amended: a message is complete exactly when the accumulated buffer
parses as JSON (`json.loads` succeeds): a nonempty chunk that makes the
buffer parse returns the whole buffer at once, every returned buffer
parses, and a peer close while nonempty accumulated data does not parse
fails with `SketchUpProtocolError` "Incomplete JSON response received". -/
theorem c3_json_framing :
    (∀ (chunk : List Char) (rest : List RecvEvent) (acc : List Char) (reads : Nat),
        chunk ≠ [] → jsonValid (acc ++ chunk) = true →
        receiveLoop (.data chunk :: rest) acc reads = (.ok (acc ++ chunk), reads + 1))
    ∧ (∀ (script : List RecvEvent) (acc : List Char) (reads n : Nat) (d : List Char),
        receiveLoop script acc reads = (.ok d, n) → jsonValid d = true)
    ∧ (∀ (acc : List Char) (rest : List RecvEvent) (reads : Nat),
        acc ≠ [] → jsonValid acc = false →
        receiveLoop (.data [] :: rest) acc reads
          = (.err (.skProto "Incomplete JSON response received"), reads + 1)) := by
  refine ⟨?_, receiveLoop_ok_json, ?_⟩
  · intro chunk rest acc reads h1 h2
    cases chunk with
    | nil => exact absurd rfl h1
    | cons c cs => simp [receiveLoop, h2]
  · intro acc rest reads h1 h2
    cases acc with
    | nil => exact absurd rfl h1
    | cons a as => simp [receiveLoop, afterBreak, h2]

/-- C3 witness: a single chunk holding a complete JSON document is
returned as soon as it arrives. -/
theorem c3_json_framing_witness :
    receiveLoop [.data ['\x7b', '\x7d']] [] 0 = (.ok ([] ++ ['\x7b', '\x7d']), 0 + 1) :=
  c3_json_framing.1 ['\x7b', '\x7d'] [] [] 0 (by decide) (by rfl)

/-- C4 counterexample: a first chunk of 10485761 bytes (over the 10 MiB
the spec names) containing no newline does not make the read fail with a
size error: the code performs a second `recv` and, at peer close, reports
the incomplete-JSON protocol error — there is no size check to trip. -/
theorem c4_size_cex :
    10 * 1024 * 1024 < (List.replicate 10485761 'x').length
    ∧ ('\n' ∉ List.replicate 10485761 'x')
    ∧ receive_full_response [.data (List.replicate 10485761 'x'), .data []]
        = (.err (.skProto "Incomplete JSON response received"), 2) := by
  refine ⟨by rw [List.length_replicate]; norm_num, ?_, ?_⟩
  · intro h
    exact absurd (List.eq_of_mem_replicate h) (by decide)
  · have h1 : (10485761 : Nat) = 10485760 + 1 := by norm_num
    have hL : List.replicate 10485761 'x' = 'x' :: List.replicate 10485760 'x' := by
      rw [h1, List.replicate_succ]
    unfold receive_full_response
    rw [hL]
    simp only [receiveLoop, afterBreak, jsonValid_x_cons, List.isEmpty_cons,
      List.nil_append, List.isEmpty_nil, Bool.false_eq_true, if_false, if_true]

/-- C4 amended: no maximum response size is enforced anywhere in
`receive_full_response`: whatever the event script delivers, the result
is never a size-limit protocol error; reading stops only when the buffer
parses, the peer closes, a timeout fires, or the socket errors. -/
theorem c4_no_size_error (script : List RecvEvent) :
    raisesSizeError (receive_full_response script).1 = false :=
  receiveLoop_no_size script [] 0

/-- C5: a read that times out before any byte arrived does not raise the
timeout error kind: the inner handler at line 177 breaks out of the loop
and the empty buffer then hits the `SketchUpConnectionError("No data
received")` at line 202 (the outer `SketchUpTimeoutError` handler is
unreachable from `recv`); a timeout after a non-parsing partial chunk
does yield the incomplete protocol error. -/
theorem c5_timeout_zero_bytes :
    receive_full_response [.timeoutEv] = (.err (.skConn "No data received"), 1)
    ∧ receive_full_response [.data ['a'], .timeoutEv]
        = (.err (.skProto "Incomplete JSON response received"), 2) :=
  ⟨rfl, rfl⟩

/-- C6: the hello request's params are always exactly name, version,
agent and pid — no configuration can add a `token` key, because the
dataclass has no token field and `_send_hello` (lines 94-104) never
inserts one. -/
theorem c6_hello_no_token (agent : String) (pid : Nat) :
    (helloParams agent pid).map Prod.fst = ["name", "version", "agent", "pid"]
    ∧ dictHasKey (helloParams agent pid) "token" = false :=
  ⟨rfl, rfl⟩

/-- C7: with the initial connect succeeding and every attempt failing
with a caught transport-level error, `send_command` never makes more than
maxRetries + 1 attempts; if every reconnect also succeeds it raises a
`SketchUpConnectionError` after exactly maxRetries + 1 attempts; and if
the first reconnect fails it stops immediately — one attempt — with a
`SketchUpConnectionError`. -/
theorem c7_retry_exhaustion (st : ConnState) (connectOK : Nat → Bool)
    (att : Nat → Attempt) (method : String)
    (params : Option (List (String × Json))) (rid : Json) (maxR : Nat)
    (hc0 : connectOK 0 = true)
    (hA : ∀ i, attemptFailsTransport (att i) = true) :
    (send_command st connectOK att method params rid maxR).attempts ≤ maxR + 1
    ∧ ((∀ i, connectOK i = true) →
        (send_command st connectOK att method params rid maxR).attempts = maxR + 1
        ∧ isConnErrOutcome (send_command st connectOK att method params rid maxR).outcome
            = true)
    ∧ (1 ≤ maxR → connectOK 1 = false →
        (send_command st connectOK att method params rid maxR).outcome
            = .err (.skConn "Connection to SketchUp lost after all retries")
        ∧ (send_command st connectOK att method params rid maxR).attempts = 1) := by
  refine ⟨?_, ?_, ?_⟩
  · simp only [send_command, hc0, if_pos]
    have := sendLoop_attempts_le att (fun i => connectOK (i + 1)) maxR (maxR + 1) 0 0
    simpa using this
  · intro hAll
    obtain ⟨h1, h2⟩ := sendLoop_allfail att (fun i => connectOK (i + 1)) maxR hA
      (fun i => hAll (i + 1)) (maxR + 1) 0 0 (by omega)
    constructor
    · simp only [send_command, hc0, if_pos]
      simpa using h1
    · simp only [send_command, hc0, if_pos]
      simpa using h2
  · intro hm hfail
    cases maxR with
    | zero => omega
    | succ m =>
      have := sendLoop_reconnect_fail att (fun i => connectOK (i + 1)) (m + 1) m 0 0
        (hA 0) hfail
      constructor
      · simp only [send_command, hc0, if_pos]
        simp [this]
      · simp only [send_command, hc0, if_pos]
        simp [this]

/-- C7 witness: with the default MAX_RETRIES = 2, a peer that always
resets produces a connection error after exactly 3 attempts. -/
theorem c7_retry_exhaustion_witness :
    (send_command ⟨true, true⟩ (fun _ => true)
        (fun _ => .sendFail "Connection reset by peer") "ping" none .null
        MAX_RETRIES).attempts = MAX_RETRIES + 1
    ∧ isConnErrOutcome ((send_command ⟨true, true⟩ (fun _ => true)
        (fun _ => .sendFail "Connection reset by peer") "ping" none .null
        MAX_RETRIES).outcome) = true :=
  (c7_retry_exhaustion ⟨true, true⟩ (fun _ => true)
      (fun _ => .sendFail "Connection reset by peer") "ping" none Json.null
      MAX_RETRIES rfl (fun _ => rfl)).2.1 (fun _ => rfl)

/-- C8 counterexample: `send_command("hello", None)` is not sent as a
direct JSON-RPC call: the request builder wraps it like any ordinary
method, with wire method "tools/call" and the name "hello" inside the
envelope. -/
theorem c8_hello_wrapped_cex :
    buildRequest "hello" none .null
      = .obj [("jsonrpc", .str "2.0"), ("method", .str "tools/call"),
              ("params", .obj [("name", .str "hello"), ("arguments", .obj [])]),
              ("id", .null)] := rfl

/-- C8 amended: only `resources/list` and an already-wrapped `tools/call`
(truthy params containing "name" and "arguments") are sent directly;
every other method — `hello` included — is wrapped as `tools/call` with
params `\x7b"name": method, "arguments": params-or-empty\x7d` (the hello
handshake itself is sent by `_send_hello`, not by `send_command`). -/
theorem c8_method_dispatch :
    (∀ (method : String) (params : Option (List (String × Json))) (rid : Json),
        method ≠ "resources/list" →
        ¬(method = "tools/call" ∧ paramsTruthy params = true
          ∧ dictHasKey (paramsFields params) "name" = true
          ∧ dictHasKey (paramsFields params) "arguments" = true) →
        buildRequest method params rid
          = .obj [("jsonrpc", .str "2.0"), ("method", .str "tools/call"),
                  ("params", .obj [("name", .str method),
                                   ("arguments", .obj (paramsOrEmpty params))]),
                  ("id", rid)])
    ∧ (∀ (params : Option (List (String × Json))) (rid : Json),
        buildRequest "resources/list" params rid
          = .obj [("jsonrpc", .str "2.0"), ("method", .str "resources/list"),
                  ("params", .obj (paramsOrEmpty params)), ("id", rid)])
    ∧ (∀ (ps : List (String × Json)) (rid : Json),
        paramsTruthy (some ps) = true →
        dictHasKey ps "name" = true → dictHasKey ps "arguments" = true →
        buildRequest "tools/call" (some ps) rid
          = .obj [("jsonrpc", .str "2.0"), ("method", .str "tools/call"),
                  ("params", .obj ps), ("id", rid)]) := by
  refine ⟨?_, ?_, ?_⟩
  · intro method params rid h1 h2
    unfold buildRequest
    rw [if_neg h2, if_neg h1]
  · intro params rid
    unfold buildRequest
    rw [if_neg (by simp), if_pos rfl]
  · intro ps rid hp hn ha
    unfold buildRequest
    rw [if_pos ⟨rfl, hp, hn, ha⟩]
    rfl

/-- C8 witness: the spec's own example — `send_command("get_layers",
\x7b\x7d)` goes out as `tools/call` with `name = "get_layers"` and empty
`arguments`. -/
theorem c8_method_dispatch_witness :
    buildRequest "get_layers" (some []) (.num "1")
      = .obj [("jsonrpc", .str "2.0"), ("method", .str "tools/call"),
              ("params", .obj [("name", .str "get_layers"), ("arguments", .obj [])]),
              ("id", .num "1")] :=
  c8_method_dispatch.1 "get_layers" (some []) (.num "1") (by decide) (by decide)

/-- C9: a protocol error from the very first attempt — the kind a
non-JSON response produces — is raised immediately: one send attempt,
only the initial connect, no reconnect, no re-send. -/
theorem c9_malformed_not_retried (st : ConnState) (connectOK : Nat → Bool)
    (att : Nat → Attempt) (method : String)
    (params : Option (List (String × Json))) (rid : Json) (maxR : Nat) (msg : String)
    (hc0 : connectOK 0 = true)
    (h0 : runAttempt (att 0) = .err (.skProto msg)) :
    send_command st connectOK att method params rid maxR
      = ⟨.err (.skProto msg), some (buildRequest method params rid), 1, 1⟩ := by
  simp [send_command, hc0, sendLoop, h0, retryable]

/-- C9 witness: a peer that sends the non-JSON byte 'a' and closes causes
the incomplete-JSON protocol error with exactly one attempt and one
connect. -/
theorem c9_malformed_not_retried_witness :
    send_command ⟨true, true⟩ (fun _ => true)
        (fun _ => .sendOk [.data ['a'], .data []]) "ping" none .null MAX_RETRIES
      = ⟨.err (.skProto "Incomplete JSON response received"),
         some (buildRequest "ping" none .null), 1, 1⟩ :=
  c9_malformed_not_retried ⟨true, true⟩ (fun _ => true)
    (fun _ => .sendOk [.data ['a'], .data []]) "ping" none Json.null MAX_RETRIES
    "Incomplete JSON response received" rfl rfl

/-- C10: with a cached connection and an unchanged agent,
`get_sketchup_connection` returns the cached instance unchanged whatever
host and port are passed (and whether or not it has a socket); only a
changed agent discards the cache and creates a fresh instance carrying
the newly passed host, port and agent. -/
theorem c10_agent_keyed_cache :
    (∀ (c : ConnRecord) (a host : String) (port : Nat),
        get_sketchup_connection ⟨some c, some a⟩ host port a = (c, ⟨some c, some a⟩))
    ∧ (∀ (c : ConnRecord) (a b host : String) (port : Nat), b ≠ a →
        get_sketchup_connection ⟨some c, some a⟩ host port b
          = (⟨host, port, b, false⟩, ⟨some ⟨host, port, b, false⟩, some b⟩)) := by
  constructor
  · intro c a host port
    simp [get_sketchup_connection]
  · intro c a b host port h
    have h2 : ¬((some a : Option String) = some b) := by
      simp [Option.some.injEq]
      exact Ne.symm h
    simp [get_sketchup_connection, h2]

/-- C10 witness: a cached "user" connection to localhost:9876 is returned
for a same-agent request naming a different host and port; an agent
change to "Claude" creates a fresh record with the new host and port. -/
theorem c10_agent_keyed_cache_witness :
    get_sketchup_connection ⟨some ⟨"localhost", 9876, "user", true⟩, some "user"⟩
        "otherhost" 1234 "Claude"
      = (⟨"otherhost", 1234, "Claude", false⟩,
         ⟨some ⟨"otherhost", 1234, "Claude", false⟩, some "Claude"⟩) :=
  c10_agent_keyed_cache.2 ⟨"localhost", 9876, "user", true⟩ "user" "Claude"
    "otherhost" 1234 (by decide)

end Supex
